import Mathlib

/-!
Shallow embedding of the candidate-path rendering and frame-assembly
pipeline of scripts/demo_cr.py (function planning_example and helper
multiline), together with the validation gate that precedes export.

Positions, costs and times are modelled as rationals.  Python lists are
Lean lists; the matplotlib current-figure state that the script drives
is modelled by recording, per frame, the data handed to each drawing
call (polylines, quiver arrows, axis limits, title fields); the mutable
time_list that the frame loop appends to is threaded explicitly as
state.
-/

/-- Python min over a list, as used on the coordinate lists
(min of an empty list is not reached by the script; 0 is a junk value). -/
def listMin : List ℚ → ℚ
  | [] => 0
  | x :: xs => xs.foldl min x

/-- Python max over a list (dual of listMin). -/
def listMax : List ℚ → ℚ
  | [] => 0
  | x :: xs => xs.foldl max x

/-- The axis limits set by plt.xlim / plt.ylim for one frame:
(xlo, xhi) and (ylo, yhi). -/
structure Viewport where
  xlo : ℚ
  xhi : ℚ
  ylo : ℚ
  yhi : ℚ
deriving DecidableEq

/-- The square-framing step shared by both export paths of demo_cr.py:
given padded bounds, take the longer span l and pad the shorter axis
symmetrically (lines 264 and 270-275). -/
def mkViewport (x_min x_max y_min y_max : ℚ) : Viewport :=
  let l := max (x_max - x_min) (y_max - y_min)
  if l = x_max - x_min then
    ⟨x_min, x_max, y_min - (l - (y_max - y_min)) / 2, y_max + (l - (y_max - y_min)) / 2⟩
  else
    ⟨x_min - (l - (x_max - x_min)) / 2, x_max + (l - (x_max - x_min)) / 2, y_min, y_max⟩

/-- The viewport computation performed inside the animated-export loop
(demo_cr.py lines 260-275): bounds of the full ego trajectory padded by
8, then squared by mkViewport.  The frame index i is a parameter
because the script re-runs this code once per frame, but the
computation never reads it. -/
def viewportAt (i : Nat) (traj : List (ℚ × ℚ)) : Viewport :=
  let _ := i
  let x_coords := traj.map Prod.fst
  let y_coords := traj.map Prod.snd
  mkViewport (listMin x_coords - 8) (listMax x_coords + 8)
    (listMin y_coords - 8) (listMax y_coords + 8)

/-- The LineCollection built by multiline (demo_cr.py lines 48-63):
one segment per (x, y) pair, the per-segment scalar array set from c,
and the colormap name passed by the caller. -/
structure LineCollection where
  segments : List (List (ℚ × ℚ))
  array : List ℚ
  cmap : String
deriving DecidableEq

/-- multiline (demo_cr.py lines 28-63): builds one polyline per
(x, y) coordinate-list pair via np.column_stack and sets the scalar
array to c.  The call site always passes cmap=RdYlGn_r. -/
def multiline (xs ys : List (List ℚ)) (c : List ℚ) : LineCollection :=
  { segments := (xs.zip ys).map (fun p => p.1.zip p.2)
    array := c
    cmap := "RdYlGn_r" }

/-- Modelled from the spec: the matplotlib colormap normalization for a
LineCollection whose norm was never set explicitly.  multiline calls
lc.set_array with no norm, so at draw time matplotlib autoscales the
color normalization to the minimum and maximum of the scalar array;
plt.colorbar(lc) displays exactly that normalization range.  matplotlib
itself is an external collaborator not present under src/. -/
def lcNorm (lc : LineCollection) : ℚ × ℚ :=
  (listMin lc.array, listMax lc.array)

/-- Python l[::5] (every 5th element starting at index 0), used by the
quiver calls for direction markers. -/
def every5 {α : Type} (l : List α) : List α :=
  (l.enum.filter (fun p => p.1 % 5 == 0)).map Prod.snd

/-- np.diff on a coordinate list, paired componentwise:
diffPts [p0, p1, ...] = [p1 - p0, p2 - p1, ...]. -/
def diffPts (l : List (ℚ × ℚ)) : List (ℚ × ℚ) :=
  List.zipWith (fun a b => (b.1 - a.1, b.2 - a.2)) l l.tail

/-- One candidate Frenet path as consumed by the export loop: sampled
x and y coordinates plus the final scalar cost. -/
structure FrenetPath where
  x : List ℚ
  y : List ℚ
  cost_final : ℚ
deriving DecidableEq

/-- A dynamic obstacle: its recorded trajectory, one state per time
step starting at 0. -/
structure Obstacle where
  traj : List (ℚ × ℚ)
deriving DecidableEq

/-- obs.state_at_time(t): the recorded state at time step t, or none
once the recorded trajectory is exhausted. -/
def Obstacle.state_at_time (obs : Obstacle) (t : Nat) : Option (ℚ × ℚ) :=
  obs.traj.get? t

/-- The while-loop of demo_cr.py lines 278-284: starting at time t,
query state_at_time, collect positions and advance until the first
missing state.  Returns the collected points and the list of queried
time indices; fuel bounds the iteration count so the function is total,
and the theorems below show the result is fuel-independent once fuel
exceeds the trajectory length. -/
def probeObstacle : Nat → (Nat → Option (ℚ × ℚ)) → Nat →
    List (ℚ × ℚ) × List Nat
  | 0, _, _ => ([], [])
  | fuel + 1, f, t =>
    match f t with
    | none => ([], [t])
    | some p =>
        let r := probeObstacle fuel f (t + 1)
        (p :: r.1, t :: r.2)

/-- Python banker's rounding of q to the nearest integer
(round-half-to-even, as used by round()). -/
def roundHalfEven (q : ℚ) : ℤ :=
  let f := ⌊q⌋
  let r := q - f
  if r < 1 / 2 then f
  else if 1 / 2 < r then f + 1
  else if f % 2 = 0 then f else f + 1

/-- Python round(q, 3). -/
def roundTo3 (q : ℚ) : ℚ :=
  (roundHalfEven (q * 1000) : ℚ) / 1000

/-- The per-obstacle drawing data produced inside the animated-export
loop (demo_cr.py lines 277-292): two quiver calls (past and future
direction markers, stride 5) and two plot calls (past and future
sub-polylines), all over the trajectory truncated by one point. -/
structure ObstacleLayer where
  pastQuiverPos : List (ℚ × ℚ)
  pastQuiverVec : List (ℚ × ℚ)
  futureQuiverPos : List (ℚ × ℚ)
  futureQuiverVec : List (ℚ × ℚ)
  past : List (ℚ × ℚ)
  future : List (ℚ × ℚ)
deriving DecidableEq

/-- Everything one iteration of the animated-export loop hands to the
plotting layer for frame i (demo_cr.py lines 229-308). -/
structure FrameData where
  sceneTime : Nat
  overlay : LineCollection
  colorbar : ℚ × ℚ
  egoPast : List (ℚ × ℚ)
  egoFuture : List (ℚ × ℚ)
  egoFutureQuiverPos : List (ℚ × ℚ)
  egoFutureQuiverVec : List (ℚ × ℚ)
  viewport : Viewport
  obstacleLayers : List ObstacleLayer
  titleMethod : String
  titleSamples : Nat
  titleTime : Option ℚ
  suptitle : String
deriving DecidableEq

/-- The fixed inputs of one export run: method tag, scenario id, the
full ego trajectory and the dynamic obstacles of the scenario. -/
structure ComposeInputs where
  method : String
  scenario_id : String
  egoTraj : List (ℚ × ℚ)
  obstacles : List Obstacle
deriving DecidableEq

/-- One iteration of the animated-export loop of planning_example
(demo_cr.py lines 226-308), composing the frame for decision step i.
fps is fplist[i]; time_list is the mutable list the loop appends 0 to
(line 293) before reading time_list[i] for the title (line 294) - it is
threaded as explicit state and returned updated.  Reading past the end
of time_list, which in Python raises IndexError, yields none. -/
def composeFrame (i : Nat) (inp : ComposeInputs) (fps : List FrenetPath)
    (time_list : List ℚ) : FrameData × List ℚ :=
  let costs := fps.map (fun fp => fp.cost_final)
  let xs := fps.map (fun fp => fp.x.drop 1)
  let ys := fps.map (fun fp => fp.y.drop 1)
  let lc := multiline xs ys costs
  let traj := inp.egoTraj
  let x_coords_f := traj.drop i
  let d_ego_f := diffPts x_coords_f
  let layers := inp.obstacles.map (fun obs =>
    let obs_traj := (probeObstacle (obs.traj.length + 1) obs.state_at_time 0).1
    let d := diffPts obs_traj
    let tr := obs_traj.dropLast
    { pastQuiverPos := every5 (tr.take i)
      pastQuiverVec := every5 (d.take i)
      futureQuiverPos := every5 (tr.drop i)
      futureQuiverVec := every5 (d.drop i)
      past := tr.take i
      future := tr.drop i : ObstacleLayer })
  let time_list2 := time_list ++ [0]
  ({ sceneTime := i
     overlay := lc
     colorbar := lcNorm lc
     egoPast := traj.take i
     egoFuture := x_coords_f
     egoFutureQuiverPos := every5 x_coords_f.dropLast
     egoFutureQuiverVec := every5 d_ego_f
     viewport := viewportAt i traj
     obstacleLayers := layers
     titleMethod := inp.method
     titleSamples := fps.length
     titleTime := (time_list2.get? i).map roundTo3
     suptitle := inp.scenario_id }, time_list2)

/-- The animated-export loop (demo_cr.py line 226): for i in
range(len(fplist)) compose the frame for step i, threading the mutated
time_list; frames accumulate in the images list in loop order. -/
def runExportLoop (inp : ComposeInputs) (fplist : List (List FrenetPath))
    (ts0 : List ℚ) : List FrameData × List ℚ :=
  (List.range fplist.length).foldl
    (fun acc i =>
      let r := composeFrame i inp (fplist.getD i []) acc.2
      (acc.1 ++ [r.1], r.2))
    ([], ts0)

/-- Failure of the animation-encoding step.  With an empty frame
sequence the export tail after the loop fails before any artifact is
written: the zero-iteration loop leaves scenario_id unassigned, so the
f-string at demo_cr.py line 316 raises UnboundLocalError, and the
subscript images[0] at line 317 would raise IndexError; the spec
taxonomy calls this failure EncodingError. -/
inductive EncodeError
  | emptyFrameSequence
deriving DecidableEq

/-- The encoded animation artifact produced by
images[0].save(..., append_images=images[1:], duration=100, loop=0):
all frames in list order, 100 ms per frame, loop = 0 meaning loop
forever. -/
structure Gif where
  frames : List FrameData
  durationMs : Nat
  loop : Nat
deriving DecidableEq

/-- The encoding step (demo_cr.py lines 316-317): the first image is
saved with the remaining images appended, duration=100 and loop=0; on
an empty image list the subscript images[0] fails. -/
def encodeGif (images : List FrameData) : Except EncodeError Gif :=
  match images with
  | [] => .error .emptyFrameSequence
  | img0 :: rest => .ok { frames := img0 :: rest, durationMs := 100, loop := 0 }

/-- Modelled from the spec: the external collision engine
(commonroad_dc, not under src/).  A collision checker holds the
collision objects registered so far; collide(obj) reports whether obj
intersects any of them; add_collision_object registers one more object.
The obstacle geometry type and the pairwise intersection test are
parameters. -/
structure CollisionChecker (α : Type) where
  objects : List α

def CollisionChecker.collide {α : Type} (inter : α → α → Bool)
    (cc : CollisionChecker α) (obj : α) : Bool :=
  cc.objects.any (fun o => inter o obj)

def CollisionChecker.add_collision_object {α : Type}
    (cc : CollisionChecker α) (o : α) : CollisionChecker α :=
  ⟨cc.objects ++ [o]⟩

/-- The collision-checking block of planning_example (demo_cr.py lines
104-121): build a checker from the scenario obstacles, collide the ego
object, add the derived road boundary to the same checker, collide
again; both results are returned. -/
def collisionGate {α : Type} (inter : α → α → Bool)
    (scenarioObstacles : List α) (road_boundary : α) (ego_vehicle_co : α) :
    Bool × Bool :=
  let cc : CollisionChecker α := ⟨scenarioObstacles⟩
  let res_collision := cc.collide inter ego_vehicle_co
  let cc2 := cc.add_collision_object road_boundary
  let res_outofbound := cc2.collide inter ego_vehicle_co
  (res_collision, res_outofbound)

/-- The error raised inside the per-scenario try block.  RuntimeError
is raised explicitly when planning produced no trajectory (line 94);
indexError models the failure of the export tail on an empty frame
list (UnboundLocalError reading scenario_id at line 316, then
IndexError at images[0] at line 317), neither of which is a
RuntimeError. -/
inductive RunError
  | runtimeError
  | indexError
deriving DecidableEq

/-- The validation results computed once per run (lines 112, 121, 133)
and carried as plain data. -/
structure ValidationData where
  res_collision : Bool
  res_outofbound : Bool
  feasible : Bool
deriving DecidableEq

/-- What a completed per-scenario run produces. -/
structure RunOutput where
  validation : ValidationData
  solutionWritten : Bool
  gif : Gif
deriving DecidableEq

/-- The body of the try block of planning_example (demo_cr.py lines
86-318), after the external planner returned: raise RuntimeError when
no trajectory was produced (lines 92-94); otherwise record the
validation flags as data, write the solution, compose all frames and
encode the animation.  The validation flags never influence control
flow. -/
def scenarioRunBody (ego_vehicle_trajectory : Option (List (ℚ × ℚ)))
    (vd : ValidationData) (inp : ComposeInputs)
    (fplist : List (List FrenetPath)) (time_list : List ℚ) :
    Except RunError RunOutput :=
  match ego_vehicle_trajectory with
  | none => .error .runtimeError
  | some _ =>
    let images := (runExportLoop inp fplist time_list).1
    match encodeGif images with
    | .error _ => .error .indexError
    | .ok gif => .ok { validation := vd, solutionWritten := true, gif := gif }

/-- The observable outcome of running one scenario at top level. -/
inductive ScenarioOutcome
  | completed (out : RunOutput)
  | skippedLogged (msg : String)
  | uncaught (e : RunError)
deriving DecidableEq

/-- planning_example's outer control flow (demo_cr.py lines 86 and
320-321): the try block's RuntimeError is caught and logged, any other
error propagates. -/
def planning_example_run (ego_vehicle_trajectory : Option (List (ℚ × ℚ)))
    (vd : ValidationData) (inp : ComposeInputs)
    (fplist : List (List FrenetPath)) (time_list : List ℚ) : ScenarioOutcome :=
  match scenarioRunBody ego_vehicle_trajectory vd inp fplist time_list with
  | .ok o => .completed o
  | .error .runtimeError =>
      .skippedLogged "not feasible, proceding to next file!"
  | .error e => .uncaught e

lemma foldl_min_le (xs : List ℚ) (acc : ℚ) : xs.foldl min acc ≤ acc := by
  induction xs generalizing acc with
  | nil => simp
  | cons y ys ih =>
      simpa using le_trans (ih (min acc y)) (min_le_left acc y)

lemma foldl_min_le_mem (xs : List ℚ) (acc a : ℚ) (h : a ∈ xs) :
    xs.foldl min acc ≤ a := by
  induction xs generalizing acc with
  | nil => cases h
  | cons y ys ih =>
      rcases List.mem_cons.mp h with rfl | h
      · simpa using le_trans (foldl_min_le ys (min acc a)) (min_le_right acc a)
      · exact ih (min acc y) h

lemma listMin_le (l : List ℚ) (a : ℚ) (h : a ∈ l) : listMin l ≤ a := by
  cases l with
  | nil => cases h
  | cons x xs =>
      rcases List.mem_cons.mp h with rfl | h
      · exact foldl_min_le xs a
      · exact foldl_min_le_mem xs x a h

lemma le_foldl_max (xs : List ℚ) (acc : ℚ) : acc ≤ xs.foldl max acc := by
  induction xs generalizing acc with
  | nil => simp
  | cons y ys ih =>
      simpa using le_trans (le_max_left acc y) (ih (max acc y))

lemma mem_le_foldl_max (xs : List ℚ) (acc a : ℚ) (h : a ∈ xs) :
    a ≤ xs.foldl max acc := by
  induction xs generalizing acc with
  | nil => cases h
  | cons y ys ih =>
      rcases List.mem_cons.mp h with rfl | h
      · simpa using le_trans (le_max_right acc a) (le_foldl_max ys (max acc a))
      · exact ih (max acc y) h

lemma le_listMax (l : List ℚ) (a : ℚ) (h : a ∈ l) : a ≤ listMax l := by
  cases l with
  | nil => cases h
  | cons x xs =>
      rcases List.mem_cons.mp h with rfl | h
      · exact le_foldl_max xs a
      · exact mem_le_foldl_max xs x a h

lemma foldl_min_mem (xs : List ℚ) (acc : ℚ) :
    xs.foldl min acc ∈ acc :: xs := by
  induction xs generalizing acc with
  | nil => simp
  | cons y ys ih =>
      have hm := ih (min acc y)
      rw [List.mem_cons] at hm
      rcases hm with hm | hm
      · rcases min_choice acc y with hxy | hxy
        · exact List.mem_cons.mpr (Or.inl (hm.trans hxy))
        · exact List.mem_cons.mpr (Or.inr (List.mem_cons.mpr (Or.inl (hm.trans hxy))))
      · exact List.mem_cons.mpr (Or.inr (List.mem_cons.mpr (Or.inr hm)))

lemma listMin_mem (l : List ℚ) (h : l ≠ []) : listMin l ∈ l := by
  cases l with
  | nil => exact absurd rfl h
  | cons x xs => exact foldl_min_mem xs x

lemma foldl_max_mem (xs : List ℚ) (acc : ℚ) :
    xs.foldl max acc ∈ acc :: xs := by
  induction xs generalizing acc with
  | nil => simp
  | cons y ys ih =>
      have hm := ih (max acc y)
      rw [List.mem_cons] at hm
      rcases hm with hm | hm
      · rcases max_choice acc y with hxy | hxy
        · exact List.mem_cons.mpr (Or.inl (hm.trans hxy))
        · exact List.mem_cons.mpr (Or.inr (List.mem_cons.mpr (Or.inl (hm.trans hxy))))
      · exact List.mem_cons.mpr (Or.inr (List.mem_cons.mpr (Or.inr hm)))

lemma listMax_mem (l : List ℚ) (h : l ≠ []) : listMax l ∈ l := by
  cases l with
  | nil => exact absurd rfl h
  | cons x xs => exact foldl_max_mem xs x

lemma mkViewport_span (a b c d : ℚ) :
    (mkViewport a b c d).xhi - (mkViewport a b c d).xlo =
      (mkViewport a b c d).yhi - (mkViewport a b c d).ylo := by
  simp only [mkViewport]
  split_ifs with hc
  · dsimp only
    linarith [le_max_right (b - a) (d - c), hc]
  · have hcy : max (b - a) (d - c) = d - c := by
      rcases max_choice (b - a) (d - c) with h1 | h1
      · exact absurd h1 hc
      · exact h1
    dsimp only
    rw [hcy]
    ring

lemma mkViewport_bounds (a b c d : ℚ) :
    (mkViewport a b c d).xlo ≤ a ∧ b ≤ (mkViewport a b c d).xhi ∧
    (mkViewport a b c d).ylo ≤ c ∧ d ≤ (mkViewport a b c d).yhi := by
  simp only [mkViewport]
  split_ifs with hc
  · have hmr := le_max_right (b - a) (d - c)
    rw [hc] at hmr
    dsimp only
    refine ⟨le_refl a, le_refl b, ?_, ?_⟩
    · rw [hc]
      linarith
    · rw [hc]
      linarith
  · have hcy : max (b - a) (d - c) = d - c := by
      rcases max_choice (b - a) (d - c) with h1 | h1
      · exact absurd h1 hc
      · exact h1
    have hml := le_max_left (b - a) (d - c)
    rw [hcy] at hml
    dsimp only
    refine ⟨?_, ?_, le_refl c, le_refl d⟩
    · rw [hcy]
      linarith
    · rw [hcy]
      linarith

/-- C1: within one animated export the viewport is identical for every
frame index, and that common viewport is square (equal x-span and
y-span) and contains every position of the full ego trajectory with a
margin of at least 8 units on each side. -/
theorem viewport_fixed_square_margin_c1 (traj : List (ℚ × ℚ)) (t1 t2 : Nat)
    (_h : traj ≠ []) :
    viewportAt t1 traj = viewportAt t2 traj ∧
    (viewportAt t1 traj).xhi - (viewportAt t1 traj).xlo =
      (viewportAt t1 traj).yhi - (viewportAt t1 traj).ylo ∧
    (∀ p ∈ traj,
      (viewportAt t1 traj).xlo ≤ p.1 - 8 ∧ p.1 + 8 ≤ (viewportAt t1 traj).xhi ∧
      (viewportAt t1 traj).ylo ≤ p.2 - 8 ∧ p.2 + 8 ≤ (viewportAt t1 traj).yhi) := by
  refine ⟨rfl, mkViewport_span _ _ _ _, ?_⟩
  intro p hp
  have hx : p.1 ∈ traj.map Prod.fst := List.mem_map.mpr ⟨p, hp, rfl⟩
  have hy : p.2 ∈ traj.map Prod.snd := List.mem_map.mpr ⟨p, hp, rfl⟩
  have hx1 : listMin (traj.map Prod.fst) ≤ p.1 := listMin_le _ _ hx
  have hx2 : p.1 ≤ listMax (traj.map Prod.fst) := le_listMax _ _ hx
  have hy1 : listMin (traj.map Prod.snd) ≤ p.2 := listMin_le _ _ hy
  have hy2 : p.2 ≤ listMax (traj.map Prod.snd) := le_listMax _ _ hy
  have hb := mkViewport_bounds (listMin (traj.map Prod.fst) - 8)
    (listMax (traj.map Prod.fst) + 8) (listMin (traj.map Prod.snd) - 8)
    (listMax (traj.map Prod.snd) + 8)
  have hvp : viewportAt t1 traj = mkViewport (listMin (traj.map Prod.fst) - 8)
      (listMax (traj.map Prod.fst) + 8) (listMin (traj.map Prod.snd) - 8)
      (listMax (traj.map Prod.snd) + 8) := rfl
  rw [hvp]
  exact ⟨by linarith [hb.1], by linarith [hb.2.1], by linarith [hb.2.2.1],
    by linarith [hb.2.2.2]⟩

/-- Witness for C1 at the one-point trajectory [(0, 0)] and frame
indices 0 and 1. -/
theorem viewport_fixed_square_margin_c1_witness :
    ([((0:ℚ), (0:ℚ))] ≠ []) ∧
    (viewportAt 0 [((0:ℚ), (0:ℚ))] = viewportAt 1 [((0:ℚ), (0:ℚ))] ∧
    (viewportAt 0 [((0:ℚ), (0:ℚ))]).xhi - (viewportAt 0 [((0:ℚ), (0:ℚ))]).xlo =
      (viewportAt 0 [((0:ℚ), (0:ℚ))]).yhi - (viewportAt 0 [((0:ℚ), (0:ℚ))]).ylo ∧
    (∀ p ∈ [((0:ℚ), (0:ℚ))],
      (viewportAt 0 [((0:ℚ), (0:ℚ))]).xlo ≤ p.1 - 8 ∧
      p.1 + 8 ≤ (viewportAt 0 [((0:ℚ), (0:ℚ))]).xhi ∧
      (viewportAt 0 [((0:ℚ), (0:ℚ))]).ylo ≤ p.2 - 8 ∧
      p.2 + 8 ≤ (viewportAt 0 [((0:ℚ), (0:ℚ))]).yhi)) :=
  ⟨by simp, viewport_fixed_square_margin_c1 [((0:ℚ), (0:ℚ))] 0 1 (by simp)⟩

lemma probeObstacle_spec (f : Nat → Option (ℚ × ℚ)) (k : Nat) :
    ∀ (t fuel : Nat), k + 1 ≤ fuel →
    (∀ i, t ≤ i → i < t + k → (f i).isSome) → f (t + k) = none →
    probeObstacle fuel f t =
      (((List.range k).map (fun j => t + j)).filterMap f,
       (List.range (k + 1)).map (fun j => t + j)) := by
  induction k with
  | zero =>
      intro t fuel hfuel _ hnone
      cases fuel with
      | zero => omega
      | succ fuel =>
          simp only [probeObstacle]
          rw [show t + 0 = t from rfl] at hnone
          rw [hnone]
          simp [List.range_succ]
  | succ k ih =>
      intro t fuel hfuel hsome hnone
      cases fuel with
      | zero => omega
      | succ fuel =>
          have ht : (f t).isSome := hsome t (le_refl t) (by omega)
          obtain ⟨p, hp⟩ := Option.isSome_iff_exists.mp ht
          simp only [probeObstacle, hp]
          have hrec := ih (t + 1) fuel (by omega)
            (fun i h1 h2 => hsome i (by omega) (by omega))
            (by rw [show t + 1 + k = t + (k + 1) from by omega]; exact hnone)
          rw [hrec]
          dsimp only
          rw [Prod.mk.injEq]
          constructor
          · rw [List.range_succ_eq_map]
            rw [List.map_cons, List.map_map, List.filterMap_cons]
            rw [show t + 0 = t from rfl, hp]
            congr 1
            congr 1
            apply List.map_congr_left
            intro j _
            simp only [Function.comp_apply]
            omega
          · rw [List.range_succ_eq_map (k + 1)]
            rw [List.map_cons, List.map_map]
            rw [show t + 0 = t from rfl]
            congr 1
            apply List.map_congr_left
            intro j _
            simp only [Function.comp_apply]
            omega

lemma filterMap_range_get? {α : Type} (l : List α) :
    (List.range l.length).filterMap (fun i => l.get? i) = l := by
  induction l with
  | nil => simp
  | cons x xs ih =>
      rw [List.length_cons, List.range_succ_eq_map, List.filterMap_cons]
      simp only [List.get?_cons_zero]
      rw [List.filterMap_map]
      have : (fun i => (x :: xs).get? i) ∘ Nat.succ = fun i => xs.get? i := by
        funext i
        simp
      rw [this, ih]

/-- Recovering a recorded obstacle trajectory with the probing loop:
with fuel one larger than the trajectory length, the loop returns
exactly the recorded points. -/
lemma probeObstacle_get? (l : List (ℚ × ℚ)) :
    (probeObstacle (l.length + 1) (fun t => l.get? t) 0).1 = l := by
  have h := probeObstacle_spec (fun t => l.get? t) l.length 0 (l.length + 1)
    (le_refl _)
    (fun i h1 h2 => by
      rw [Option.isSome_iff_exists]
      rcases List.get?_eq_get (by omega : i < l.length) with hg
      exact ⟨_, hg⟩)
    (by simp)
  rw [h]
  dsimp only
  have : (List.range l.length).map (fun j => 0 + j) = List.range l.length := by
    simp
  rw [this, filterMap_range_get?]

lemma composeFrame_snd (i : Nat) (inp : ComposeInputs) (fps : List FrenetPath)
    (ts : List ℚ) : (composeFrame i inp fps ts).2 = ts ++ [0] := rfl

/-- Closed form of the export loop: the frame for step i is composed on
the time_list state ts0 ++ i zeros, and the final state carries one
appended zero per frame. -/
lemma runExportLoop_eq (inp : ComposeInputs) (fplist : List (List FrenetPath))
    (ts0 : List ℚ) :
    runExportLoop inp fplist ts0 =
      ((List.range fplist.length).map
        (fun i => (composeFrame i inp (fplist.getD i []) (ts0 ++ List.replicate i 0)).1),
       ts0 ++ List.replicate fplist.length 0) := by
  unfold runExportLoop
  generalize fplist.length = n
  induction n with
  | zero => simp
  | succ n ih =>
      rw [List.range_succ, List.foldl_append, List.map_append, ih]
      simp only [List.foldl_cons, List.foldl_nil]
      rw [composeFrame_snd]
      rw [Prod.mk.injEq]
      constructor
      · rfl
      · rw [List.append_assoc, List.replicate_succ']

lemma encodeGif_ne_nil (images : List FrameData) (h : images ≠ []) :
    encodeGif images = .ok { frames := images, durationMs := 100, loop := 0 } := by
  cases images with
  | nil => exact absurd rfl h
  | cons img0 rest => rfl

lemma runExportLoop_fst_ne_nil (inp : ComposeInputs)
    (fplist : List (List FrenetPath)) (ts0 : List ℚ) (h : fplist ≠ []) :
    (runExportLoop inp fplist ts0).1 ≠ [] := by
  rw [runExportLoop_eq]
  intro hnil
  simp only [List.map_eq_nil_iff, List.range_eq_nil] at hnil
  exact h (List.length_eq_zero.mp hnil)

/-- C2 counterexample: composing a frame is not free of side effects on
state read by the next frame.  The inputs below trace through the loop
body: a one-point ego trajectory (so the viewport bounds at line 260
are well defined), one two-sample candidate, no obstacles, and an empty
initial time_list.  Composing frame 0 reaches line 293 and appends a
zero to the shared time_list, and frame 1 composed after frame 0
differs from frame 1 composed on the original time_list state: after
the mutation its title read time_list[1] (line 294) finds the zero that
frame 0 appended, while on the untouched state the same read is out of
range (in Python an IndexError, modelled as none). -/
theorem frame_purity_c2_counterexample :
    (composeFrame 0 ⟨"FISS+", "sid", [((0:ℚ), (0:ℚ))], []⟩
        [⟨[(0:ℚ), 1], [(0:ℚ), 1], 1⟩] ([] : List ℚ)).2 ≠ ([] : List ℚ) ∧
    (composeFrame 1 ⟨"FISS+", "sid", [((0:ℚ), (0:ℚ))], []⟩
        [⟨[(0:ℚ), 1], [(0:ℚ), 1], 1⟩]
        ((composeFrame 0 ⟨"FISS+", "sid", [((0:ℚ), (0:ℚ))], []⟩
          [⟨[(0:ℚ), 1], [(0:ℚ), 1], 1⟩] ([] : List ℚ)).2)).1 ≠
      (composeFrame 1 ⟨"FISS+", "sid", [((0:ℚ), (0:ℚ))], []⟩
        [⟨[(0:ℚ), 1], [(0:ℚ), 1], 1⟩] ([] : List ℚ)).1 := by
  constructor
  · simp [composeFrame]
  · intro hfr
    have h2 := congrArg FrameData.titleTime hfr
    simp [composeFrame] at h2

/-- C2 amended: composing frame t is a deterministic function of
(t, scenario data, ego trajectory, candidate set, time-list state), but
it mutates the shared time_list by appending one zero, and that list is
read by frame t+1; as long as the time_list entering frame t has more
than t+1 entries, the appended zero does not change any value frame t+1
reads, so the rendered frames are unaffected by the mutation. -/
theorem frame_purity_amended_c2 (i : Nat) (inp : ComposeInputs)
    (fps fps2 : List FrenetPath) (ts : List ℚ) (h : i + 1 ≤ ts.length) :
    (composeFrame i inp fps ts).2 = ts ++ [0] ∧
    (composeFrame (i + 1) inp fps2 ((composeFrame i inp fps ts).2)).1 =
      (composeFrame (i + 1) inp fps2 ts).1 := by
  refine ⟨rfl, ?_⟩
  have hlen : i + 1 < (ts ++ [0]).length := by
    rw [List.length_append]
    simp
    omega
  have hget : ((ts ++ [0]) ++ [0]).get? (i + 1) = (ts ++ [0]).get? (i + 1) :=
    List.get?_append hlen
  rw [composeFrame_snd]
  simp only [composeFrame]
  rw [hget]

/-- Witness for C2 amended at i = 0 with a one-entry time_list. -/
theorem frame_purity_amended_c2_witness :
    0 + 1 ≤ ([(5:ℚ)] : List ℚ).length ∧
    ((composeFrame 0 ⟨"FISS+", "sid", [((0:ℚ), (0:ℚ))], []⟩
        [⟨[(0:ℚ), 1], [(0:ℚ), 1], 1⟩] [(5:ℚ)]).2 = [(5:ℚ)] ++ [0] ∧
    (composeFrame (0 + 1) ⟨"FISS+", "sid", [((0:ℚ), (0:ℚ))], []⟩
        [⟨[(0:ℚ), 1], [(0:ℚ), 1], 1⟩]
        ((composeFrame 0 ⟨"FISS+", "sid", [((0:ℚ), (0:ℚ))], []⟩
          [⟨[(0:ℚ), 1], [(0:ℚ), 1], 1⟩] [(5:ℚ)]).2)).1 =
      (composeFrame (0 + 1) ⟨"FISS+", "sid", [((0:ℚ), (0:ℚ))], []⟩
        [⟨[(0:ℚ), 1], [(0:ℚ), 1], 1⟩] [(5:ℚ)]).1) :=
  ⟨by simp, frame_purity_amended_c2 0 ⟨"FISS+", "sid", [((0:ℚ), (0:ℚ))], []⟩
    [⟨[(0:ℚ), 1], [(0:ℚ), 1], 1⟩] [⟨[(0:ℚ), 1], [(0:ℚ), 1], 1⟩] [(5:ℚ)]
    (by simp)⟩

/-- C3 counterexample: at decision step t = 1 over a three-state ego
trajectory, the drawn past sub-polyline is state_list[0:1] = just the
state at index 0 (demo_cr.py line 250), not the states at indices 0..1
inclusive as claimed. -/
theorem ego_split_c3_counterexample :
    (composeFrame 1 ⟨"FISS+", "sid",
        [((0:ℚ), (0:ℚ)), ((1:ℚ), (1:ℚ)), ((2:ℚ), (2:ℚ))], []⟩ [] []).1.egoPast =
      [((0:ℚ), (0:ℚ))] ∧
    [((0:ℚ), (0:ℚ))] ≠ [((0:ℚ), (0:ℚ)), ((1:ℚ), (1:ℚ))] := by
  constructor
  · rfl
  · simp

/-- C3 amended: the composed frame for step t draws the ego past
sub-polyline from exactly the states at indices 0..t-1 (t excluded) and
the future sub-polyline from exactly the states at indices t..T; the
two share no state, and together they partition the full trajectory. -/
theorem ego_split_amended_c3 (i : Nat) (inp : ComposeInputs)
    (fps : List FrenetPath) (ts : List ℚ) :
    (composeFrame i inp fps ts).1.egoPast = inp.egoTraj.take i ∧
    (composeFrame i inp fps ts).1.egoFuture = inp.egoTraj.drop i ∧
    (composeFrame i inp fps ts).1.egoPast ++
      (composeFrame i inp fps ts).1.egoFuture = inp.egoTraj :=
  ⟨rfl, rfl, List.take_append_drop i inp.egoTraj⟩

/-- C4: one call of the colorizer with a non-empty cost list renders
one polyline per supplied path, its per-segment scalar array is exactly
the supplied cost list, the shared colormap normalization spans exactly
the minimum and maximum cost of that call (both attained by some
supplied cost), and at the call site the colorbar attached to the frame
is exactly that call-local range. -/
theorem colorizer_local_normalization_c4 (xs ys : List (List ℚ)) (c : List ℚ)
    (h : c ≠ []) :
    (multiline xs ys c).segments = (xs.zip ys).map (fun p => p.1.zip p.2) ∧
    (multiline xs ys c).array = c ∧
    lcNorm (multiline xs ys c) = (listMin c, listMax c) ∧
    listMin c ∈ c ∧ listMax c ∈ c ∧
    (∀ a ∈ c, listMin c ≤ a ∧ a ≤ listMax c) ∧
    (∀ (i : Nat) (inp : ComposeInputs) (fps : List FrenetPath) (ts : List ℚ),
      (composeFrame i inp fps ts).1.colorbar =
        (listMin (fps.map (fun fp => fp.cost_final)),
         listMax (fps.map (fun fp => fp.cost_final)))) := by
  refine ⟨rfl, rfl, rfl, listMin_mem c h, listMax_mem c h, ?_, ?_⟩
  · intro a ha
    exact ⟨listMin_le c a ha, le_listMax c a ha⟩
  · intro i inp fps ts
    rfl

/-- Witness for C4 at the cost list [1, 5] with two one-segment paths. -/
theorem colorizer_local_normalization_c4_witness :
    ([(1:ℚ), 5] ≠ []) ∧
    ((multiline [[(0:ℚ)], [(1:ℚ)]] [[(0:ℚ)], [(1:ℚ)]] [(1:ℚ), 5]).segments =
      (([[(0:ℚ)], [(1:ℚ)]].zip [[(0:ℚ)], [(1:ℚ)]]).map
        (fun p => p.1.zip p.2)) ∧
    (multiline [[(0:ℚ)], [(1:ℚ)]] [[(0:ℚ)], [(1:ℚ)]] [(1:ℚ), 5]).array =
      [(1:ℚ), 5] ∧
    lcNorm (multiline [[(0:ℚ)], [(1:ℚ)]] [[(0:ℚ)], [(1:ℚ)]] [(1:ℚ), 5]) =
      (listMin [(1:ℚ), 5], listMax [(1:ℚ), 5]) ∧
    listMin [(1:ℚ), 5] ∈ [(1:ℚ), 5] ∧ listMax [(1:ℚ), 5] ∈ [(1:ℚ), 5] ∧
    (∀ a ∈ [(1:ℚ), 5], listMin [(1:ℚ), 5] ≤ a ∧ a ≤ listMax [(1:ℚ), 5]) ∧
    (∀ (i : Nat) (inp : ComposeInputs) (fps : List FrenetPath) (ts : List ℚ),
      (composeFrame i inp fps ts).1.colorbar =
        (listMin (fps.map (fun fp => fp.cost_final)),
         listMax (fps.map (fun fp => fp.cost_final))))) :=
  ⟨by simp,
   colorizer_local_normalization_c4 [[(0:ℚ)], [(1:ℚ)]] [[(0:ℚ)], [(1:ℚ)]]
     [(1:ℚ), 5] (by simp)⟩

/-- C5: the validation gate returns two independent flags: the first is
the ego object collided against a checker holding only the scenario
obstacles, the second is the same ego object collided after the road
boundary was added to that same checker; the second checker state is a
superset of the first, so a true first flag forces a true second flag. -/
theorem collision_two_flags_superset_c5 {α : Type} (inter : α → α → Bool)
    (scenarioObstacles : List α) (road_boundary ego : α) :
    (collisionGate inter scenarioObstacles road_boundary ego).1 =
      CollisionChecker.collide inter ⟨scenarioObstacles⟩ ego ∧
    (collisionGate inter scenarioObstacles road_boundary ego).2 =
      CollisionChecker.collide inter ⟨scenarioObstacles ++ [road_boundary]⟩ ego ∧
    (collisionGate inter scenarioObstacles road_boundary ego).2 =
      ((collisionGate inter scenarioObstacles road_boundary ego).1 ||
        inter road_boundary ego) ∧
    ((collisionGate inter scenarioObstacles road_boundary ego).1 = true →
      (collisionGate inter scenarioObstacles road_boundary ego).2 = true) := by
  refine ⟨rfl, rfl, ?_, ?_⟩
  · simp [collisionGate, CollisionChecker.collide,
      CollisionChecker.add_collision_object, List.any_append]
  · intro h1
    simp [collisionGate, CollisionChecker.collide,
      CollisionChecker.add_collision_object, List.any_append] at h1 ⊢
    exact Or.inl h1

/-- Witness for C5 over a one-obstacle scene with equality as the
intersection test. -/
theorem collision_two_flags_superset_c5_witness :
    ((collisionGate (fun a b => a == b) [1] 2 1).1 =
      CollisionChecker.collide (fun a b => a == b) ⟨[1]⟩ 1 ∧
    (collisionGate (fun a b => a == b) [1] 2 1).2 =
      CollisionChecker.collide (fun a b => a == b) ⟨[1] ++ [2]⟩ 1 ∧
    (collisionGate (fun a b => a == b) [1] 2 1).2 =
      ((collisionGate (fun a b => a == b) [1] 2 1).1 || ((2 : Nat) == 1)) ∧
    ((collisionGate (fun a b => a == b) [1] 2 1).1 = true →
      (collisionGate (fun a b => a == b) [1] 2 1).2 = true)) :=
  collision_two_flags_superset_c5 (fun a b => a == b) [1] 2 1

/-- C6 counterexample: the per-scenario run can raise even though the
planner did produce a trajectory.  With a trajectory present but an
empty fplist, the export tail after the zero-iteration loop fails
(UnboundLocalError reading scenario_id at demo_cr.py line 316, then
IndexError at images[0] at line 317); that error is not a
RuntimeError, so the except clause at line 320 does not catch it and
it propagates out of the scenario run. -/
theorem run_error_c6_counterexample :
    scenarioRunBody (some [((0:ℚ), (0:ℚ))]) ⟨false, false, true⟩
        ⟨"FISS+", "sid", [((0:ℚ), (0:ℚ))], []⟩ [] [] = .error .indexError ∧
    (some [((0:ℚ), (0:ℚ))] : Option (List (ℚ × ℚ))) ≠ none ∧
    planning_example_run (some [((0:ℚ), (0:ℚ))]) ⟨false, false, true⟩
        ⟨"FISS+", "sid", [((0:ℚ), (0:ℚ))], []⟩ [] [] = .uncaught .indexError := by
  refine ⟨rfl, by simp, rfl⟩

/-- C6 amended: with at least one candidate frame, the per-scenario run
raises RuntimeError exactly when the planner produced no trajectory;
failed validation checks are recorded as data and never abort the run
(the body completes for every combination of flags); and the
no-trajectory RuntimeError is caught at the top level of the scenario
run and logged rather than propagating out of the batch. -/
theorem run_error_control_flow_c6 (traj : Option (List (ℚ × ℚ)))
    (vd : ValidationData) (inp : ComposeInputs)
    (fplist : List (List FrenetPath)) (ts : List ℚ) (h : fplist ≠ []) :
    (scenarioRunBody traj vd inp fplist ts = .error .runtimeError ↔
      traj = none) ∧
    (traj = none →
      planning_example_run traj vd inp fplist ts =
        .skippedLogged "not feasible, proceding to next file!") ∧
    (∀ t0, traj = some t0 →
      scenarioRunBody traj vd inp fplist ts =
        .ok { validation := vd, solutionWritten := true,
              gif := { frames := (runExportLoop inp fplist ts).1,
                       durationMs := 100, loop := 0 } }) := by
  cases traj with
  | none =>
      refine ⟨by simp [scenarioRunBody], fun _ => rfl, ?_⟩
      intro t0 ht
      exact absurd ht (by simp)
  | some t0 =>
      have hbody : scenarioRunBody (some t0) vd inp fplist ts =
          .ok { validation := vd, solutionWritten := true,
                gif := { frames := (runExportLoop inp fplist ts).1,
                         durationMs := 100, loop := 0 } } := by
        simp only [scenarioRunBody]
        rw [encodeGif_ne_nil _ (runExportLoop_fst_ne_nil inp fplist ts h)]
      refine ⟨?_, ?_, ?_⟩
      · rw [hbody]
        simp
      · intro hc
        exact absurd hc (by simp)
      · intro t1 _
        exact hbody

/-- Witness for C6 amended: a present trajectory, one candidate frame
and arbitrary validation flags. -/
theorem run_error_control_flow_c6_witness :
    (([[]] : List (List FrenetPath)) ≠ []) ∧
    ((scenarioRunBody (some [((0:ℚ), (0:ℚ))]) ⟨true, true, false⟩
        ⟨"FISS+", "sid", [((0:ℚ), (0:ℚ))], []⟩ [[]] [] =
          .error .runtimeError ↔
      (some [((0:ℚ), (0:ℚ))] : Option (List (ℚ × ℚ))) = none) ∧
    ((some [((0:ℚ), (0:ℚ))] : Option (List (ℚ × ℚ))) = none →
      planning_example_run (some [((0:ℚ), (0:ℚ))]) ⟨true, true, false⟩
        ⟨"FISS+", "sid", [((0:ℚ), (0:ℚ))], []⟩ [[]] [] =
          .skippedLogged "not feasible, proceding to next file!") ∧
    (∀ t0, (some [((0:ℚ), (0:ℚ))] : Option (List (ℚ × ℚ))) = some t0 →
      scenarioRunBody (some [((0:ℚ), (0:ℚ))]) ⟨true, true, false⟩
        ⟨"FISS+", "sid", [((0:ℚ), (0:ℚ))], []⟩ [[]] [] =
        .ok { validation := ⟨true, true, false⟩,
              solutionWritten := true,
              gif := { frames := (runExportLoop ⟨"FISS+", "sid", [((0:ℚ), (0:ℚ))], []⟩ [[]] []).1,
                       durationMs := 100,
                       loop := 0 } })) :=
  ⟨by simp,
   run_error_control_flow_c6 (some [((0:ℚ), (0:ℚ))]) ⟨true, true, false⟩
     ⟨"FISS+", "sid", [((0:ℚ), (0:ℚ))], []⟩ [[]] [] (by simp)⟩

/-- C7: invoking the animation encoder on an empty frame sequence fails
with the encoding error (the uncaught error the export tail raises at
lines 316-317 before any artifact exists, named EncodingError by the
spec). -/
theorem encode_empty_fails_c7 :
    encodeGif [] = .error .emptyFrameSequence := rfl

/-- C8: for a non-empty candidate list the encoded artifact contains
exactly one frame per composed frame, concatenated in strictly
increasing frame-index order (the image list is the frame for step i at
position i), with 100 ms per frame and loop = 0, i.e. infinite
looping. -/
theorem animation_encoding_c8 (inp : ComposeInputs)
    (fplist : List (List FrenetPath)) (ts0 : List ℚ) (h : fplist ≠ []) :
    encodeGif (runExportLoop inp fplist ts0).1 =
      .ok { frames := (runExportLoop inp fplist ts0).1,
            durationMs := 100, loop := 0 } ∧
    (runExportLoop inp fplist ts0).1.length = fplist.length ∧
    (runExportLoop inp fplist ts0).1 =
      (List.range fplist.length).map
        (fun i => (composeFrame i inp (fplist.getD i [])
          (ts0 ++ List.replicate i 0)).1) := by
  refine ⟨encodeGif_ne_nil _ (runExportLoop_fst_ne_nil inp fplist ts0 h), ?_, ?_⟩
  · rw [runExportLoop_eq]
    simp
  · rw [runExportLoop_eq]

/-- Witness for C8 with a single one-candidate frame. -/
theorem animation_encoding_c8_witness :
    (([[]] : List (List FrenetPath)) ≠ []) ∧
    (encodeGif (runExportLoop ⟨"FISS+", "sid", [], []⟩ [[]] []).1 =
      .ok { frames := (runExportLoop ⟨"FISS+", "sid", [], []⟩ [[]] []).1,
            durationMs := 100, loop := 0 } ∧
    (runExportLoop ⟨"FISS+", "sid", [], []⟩ [[]] []).1.length =
      ([[]] : List (List FrenetPath)).length ∧
    (runExportLoop ⟨"FISS+", "sid", [], []⟩ [[]] []).1 =
      (List.range ([[]] : List (List FrenetPath)).length).map
        (fun i => (composeFrame i ⟨"FISS+", "sid", [], []⟩
          (([[]] : List (List FrenetPath)).getD i [])
          (([] : List ℚ) ++ List.replicate i 0)).1)) :=
  ⟨by simp, animation_encoding_c8 ⟨"FISS+", "sid", [], []⟩ [[]] [] (by simp)⟩

lemma filterMap_length_of_isSome {α β : Type} (g : α → Option β)
    (l : List α) (h : ∀ a ∈ l, (g a).isSome) :
    (l.filterMap g).length = l.length := by
  induction l with
  | nil => rfl
  | cons x xs ih =>
      rw [List.filterMap_cons]
      obtain ⟨b, hb⟩ := Option.isSome_iff_exists.mp (h x (by simp))
      rw [hb]
      rw [List.length_cons, List.length_cons,
        ih (fun a ha => h a (by simp [ha]))]

/-- C9: for a state query with states exactly at indices 0..k-1 and
nothing at any index from k on, the probing loop (with enough fuel,
e.g. any fuel above k) returns exactly the k recorded points in index
order, and the queried indices are exactly 0..k: probing stops at the
first missing index k and never queries beyond it.  The result being
independent of the fuel is the termination statement. -/
theorem obstacle_probe_terminates_c9 (f : Nat → Option (ℚ × ℚ))
    (k fuel : Nat) (hfuel : k + 1 ≤ fuel)
    (hsome : ∀ i, i < k → (f i).isSome)
    (hnone : ∀ i, k ≤ i → f i = none) :
    probeObstacle fuel f 0 = ((List.range k).filterMap f, List.range (k + 1)) ∧
    ((List.range k).filterMap f).length = k := by
  have h := probeObstacle_spec f k 0 fuel hfuel
    (fun i h1 h2 => hsome i (by omega)) (hnone (0 + k) (by omega))
  have hzero : ∀ m, (List.range m).map (fun j => 0 + j) = List.range m := by
    intro m
    simp
  rw [hzero, hzero] at h
  refine ⟨h, ?_⟩
  have hlen := filterMap_length_of_isSome f (List.range k)
    (fun a ha => hsome a (List.mem_range.mp ha))
  rw [hlen, List.length_range]

/-- Witness for C9: two recorded states, fuel 3. -/
theorem obstacle_probe_terminates_c9_witness :
    2 + 1 ≤ 3 ∧
    (∀ i, i < 2 →
      ((fun t => if t < 2 then some ((0:ℚ), (0:ℚ)) else none) i).isSome) ∧
    (∀ i, 2 ≤ i →
      (fun t => if t < 2 then some ((0:ℚ), (0:ℚ)) else none) i = none) ∧
    (probeObstacle 3 (fun t => if t < 2 then some ((0:ℚ), (0:ℚ)) else none) 0 =
      ((List.range 2).filterMap
        (fun t => if t < 2 then some ((0:ℚ), (0:ℚ)) else none),
       List.range (2 + 1)) ∧
    ((List.range 2).filterMap
      (fun t => if t < 2 then some ((0:ℚ), (0:ℚ)) else none)).length = 2) :=
  ⟨by decide, by decide, fun i hi => if_neg (Nat.not_lt.mpr hi),
   obstacle_probe_terminates_c9
     (fun t => if t < 2 then some ((0:ℚ), (0:ℚ)) else none) 2 3 (by decide)
     (by decide) (fun i hi => if_neg (Nat.not_lt.mpr hi))⟩

/-- C10: the candidate overlay is built from each candidate's samples
from index 1 onward (fp.x[1:], fp.y[1:] at demo_cr.py lines 243-244):
the first point of every candidate is excluded, so a candidate with
exactly two samples contributes a degenerate one-point polyline. -/
theorem candidate_overlay_drops_first_c10 (i : Nat) (inp : ComposeInputs)
    (fps : List FrenetPath) (ts : List ℚ) :
    (composeFrame i inp fps ts).1.overlay.segments =
      fps.map (fun fp => (fp.x.drop 1).zip (fp.y.drop 1)) ∧
    (∀ fp ∈ fps, fp.x.length = 2 → fp.y.length = 2 →
      ((fp.x.drop 1).zip (fp.y.drop 1)).length = 1) := by
  constructor
  · show ((fps.map (fun fp => fp.x.drop 1)).zip
        (fps.map (fun fp => fp.y.drop 1))).map (fun p => p.1.zip p.2) = _
    rw [List.zip_map']
    rw [List.map_map]
    rfl
  · intro fp _ hx hy
    rw [List.length_zip, List.length_drop, List.length_drop, hx, hy]
    rfl

/-- Witness for C10 at step 0 with a single two-sample candidate. -/
theorem candidate_overlay_drops_first_c10_witness :
    ((composeFrame 0 ⟨"FISS+", "sid", [], []⟩
        [⟨[(0:ℚ), 1], [(2:ℚ), 3], 5⟩] []).1.overlay.segments =
      ([⟨[(0:ℚ), 1], [(2:ℚ), 3], 5⟩] : List FrenetPath).map
        (fun fp => (fp.x.drop 1).zip (fp.y.drop 1)) ∧
    (∀ fp ∈ [(⟨[(0:ℚ), 1], [(2:ℚ), 3], 5⟩ : FrenetPath)],
      fp.x.length = 2 → fp.y.length = 2 →
      ((fp.x.drop 1).zip (fp.y.drop 1)).length = 1)) :=
  candidate_overlay_drops_first_c10 0 ⟨"FISS+", "sid", [], []⟩
    [⟨[(0:ℚ), 1], [(2:ℚ), 3], 5⟩] []
